import Mathlib

/-!
Shallow embedding of the appointment / patient / report logic of the
visma-healthcare Django backend, together with proofs about the claims
of its specification.

Modelling conventions:
* `UUID` values are modelled as `Nat` (only identity matters; a Python
  `uuid.UUID` object is always truthy, so an `Optional[UUID]` is falsy
  exactly when it is `None`, which we model with `Option Nat`).
* `datetime` values are modelled as `Int` timestamps in seconds: the code
  only compares them and takes differences, both of which the integer
  model reflects (`(end - start).total_seconds() / 3600 > 24` holds
  exactly when `end - start > 86400` seconds).
* Django querysets over the appointment table are modelled as
  `List Appointment` and `.filter(...)` as `List.filter`.
* A raised `ValidationError` / `ValueError` is modelled as
  `Except.error` carrying the (static part of the) message string.
* `transaction.atomic` together with exception propagation means that a
  service call that raises performs no database write; accordingly the
  state-passing wrappers return the unchanged list on `Except.error`.
-/

namespace VismaHealthcare

/-- Embedding of `appointments.models.Appointment` (the fields the
validation logic reads: primary key, status string, start/end times,
participant foreign keys, cancellation reason).  `end` is a Lean keyword,
so the model field is named `endT`. -/
structure Appointment where
  id : Nat
  status : String
  start : Int
  endT : Int
  patient_id : Nat
  practitioner_id : Nat
  cancellation_reason : String
deriving Repr, DecidableEq

/-- The active statuses used by `AppointmentRepository.find_conflicts`
(`status__in=['proposed', 'pending', 'booked', 'arrived', 'checked-in']`),
the same list as `Appointment.is_active`. -/
def active_statuses : List String :=
  ["proposed", "pending", "booked", "arrived", "checked-in"]

/-- Embedding of `AppointmentRepository.find_conflicts`: filter the
appointment table by practitioner, the overlap predicate
`start__lt=end, end__gt=start`, membership of the status in
`active_statuses`, and (when an exclusion id is given) `~Q(id=...)`. -/
def find_conflicts (db : List Appointment) (practitioner_id : Nat)
    (start endT : Int) (exclude_appointment_id : Option Nat) :
    List Appointment :=
  db.filter (fun a =>
    a.practitioner_id == practitioner_id
      && decide (a.start < endT)
      && decide (a.endT > start)
      && active_statuses.contains a.status
      && (match exclude_appointment_id with
          | some eid => !(a.id == eid)
          | none => true))

/-- The availability cache of `AppointmentRepository.check_availability`.
The Python cache key is the string
`"availability:{pid}:{start.isoformat()}:{end.isoformat()}[:{exclude}]"`,
which encodes the query tuple injectively, so the cache is modelled as a
map from that tuple. -/
def AvailabilityCache : Type := Nat × Int × Int × Option Nat → Option Bool

/-- A cache holding no entries. -/
def emptyCache : AvailabilityCache := fun _ => none

/-- Embedding of `AppointmentRepository.check_availability`: return the
cached answer when present, otherwise query `find_conflicts`, answer
`len(conflicts) == 0`, and store that answer in the cache. -/
def check_availability (cache : AvailabilityCache) (db : List Appointment)
    (practitioner_id : Nat) (start endT : Int)
    (exclude_appointment_id : Option Nat) : Bool × AvailabilityCache :=
  let key := (practitioner_id, start, endT, exclude_appointment_id)
  match cache key with
  | some cached => (cached, cache)
  | none =>
    let conflicts := find_conflicts db practitioner_id start endT
        exclude_appointment_id
    let is_available := conflicts.length == 0
    (is_available, fun k => if k = key then some is_available else cache k)

/-- Embedding of `BaseRepository.get_by_id` for appointments:
`objects.filter(id=id).first()`. -/
def get_by_id (db : List Appointment) (id : Nat) : Option Appointment :=
  db.find? (fun a => a.id == id)

/-- The static adjacency table `valid_transitions` of
`AppointmentService._is_valid_status_transition`; `.get(from_status, [])`
is the wildcard `[]` row. -/
def valid_transitions (from_status : String) : List String :=
  if from_status = "proposed" then
    ["pending", "booked", "cancelled", "entered-in-error"]
  else if from_status = "pending" then
    ["booked", "cancelled", "waitlist", "entered-in-error"]
  else if from_status = "booked" then
    ["arrived", "checked-in", "fulfilled", "cancelled", "noshow"]
  else if from_status = "arrived" then
    ["fulfilled", "cancelled", "noshow"]
  else if from_status = "checked-in" then
    ["arrived", "fulfilled", "cancelled", "noshow"]
  else if from_status = "waitlist" then
    ["pending", "booked", "cancelled"]
  else []

/-- Embedding of `AppointmentService._is_valid_status_transition`: the
same status is always valid, otherwise look the target up in the table. -/
def is_valid_status_transition (from_status to_status : String) : Bool :=
  if from_status == to_status then true
  else (valid_transitions from_status).contains to_status

/-- An update payload dictionary: `some v` models a key that is present
(with a non-`None` value), `none` an absent key.  Only the keys the
appointment flows write are modelled. -/
structure UpdateData where
  start : Option Int := none
  endT : Option Int := none
  status : Option String := none
  practitioner : Option Nat := none
  practitioner_id : Option Nat := none
  cancellation_reason : Option String := none
deriving Repr, DecidableEq

/-- The practitioner id `validate_update` checks conflicts against:
`data.get('practitioner') or data.get('practitioner_id',
existing.practitioner_id)` (a present `UUID` is always truthy). -/
def effective_practitioner (data : UpdateData) (existing : Appointment) : Nat :=
  match data.practitioner with
  | some p => p
  | none => data.practitioner_id.getD existing.practitioner_id

/-- The final step of `AppointmentService.validate_update`: when a
`'status'` key is present, check the transition table. -/
def status_check (existing : Appointment) (data : UpdateData) :
    Except String Unit :=
  match data.status with
  | some new_status =>
    if is_valid_status_transition existing.status new_status then .ok ()
    else .error "Invalid status transition"
  | none => .ok ()

/-- Embedding of `AppointmentService.validate_update`: merged timing
check; when any of the start/end/practitioner keys is present, a conflict
query excluding the appointment itself, raising if it is non-empty; then
the status-transition check when a `'status'` key is present. -/
def validate_update (db : List Appointment) (existing : Appointment)
    (data : UpdateData) : Except String Unit :=
  if data.start.getD existing.start ≥ data.endT.getD existing.endT then
    .error "End time must be after start time"
  else if (data.start.isSome || data.endT.isSome || data.practitioner.isSome
        || data.practitioner_id.isSome)
      && !(find_conflicts db (effective_practitioner data existing)
            (data.start.getD existing.start) (data.endT.getD existing.endT)
            (some existing.id)).isEmpty then
    .error "Practitioner has conflicting appointments"
  else
    status_check existing data

/-- `setattr(instance, key, value)` for each key present in the update
payload, as done by `BaseRepository.update`. -/
def apply_update (a : Appointment) (data : UpdateData) : Appointment :=
  { a with
    start := data.start.getD a.start
    endT := data.endT.getD a.endT
    status := data.status.getD a.status
    practitioner_id :=
      match data.practitioner with
      | some p => p
      | none => data.practitioner_id.getD a.practitioner_id
    cancellation_reason := data.cancellation_reason.getD a.cancellation_reason }

/-- Embedding of `BaseService.update` instantiated at appointments:
missing id returns `None` without validating; otherwise
`validate_update`, then `BaseRepository.update` (which re-reads the row,
applies the payload and saves it back under its primary key). -/
def service_update (db : List Appointment) (id : Nat) (data : UpdateData) :
    Except String (Option Appointment × List Appointment) :=
  match get_by_id db id with
  | none => .ok (none, db)
  | some existing =>
    match validate_update db existing data with
    | .error e => .error e
    | .ok () =>
      match get_by_id db id with
      | none => .ok (none, db)
      | some inst =>
        let updated := apply_update inst data
        .ok (some updated, db.map (fun a => if a.id == id then updated else a))

/-- Embedding of `Appointment.can_cancel`. -/
def can_cancel (a : Appointment) : Bool :=
  ["proposed", "pending", "booked", "waitlist"].contains a.status

/-- Embedding of `AppointmentService.cancel_appointment`: look the
appointment up, gate on `can_cancel`, then update the status to
`'cancelled'` together with the cancellation reason (the schedule-cache
invalidation touches only the cache, not the table). -/
def cancel_appointment (db : List Appointment) (appointment_id : Nat)
    (cancellation_reason : String) :
    Except String (Option Appointment × List Appointment) :=
  match get_by_id db appointment_id with
  | none => .error "Appointment not found"
  | some appointment =>
    if !(can_cancel appointment) then
      .error "Cannot cancel appointment with status"
    else
      service_update db appointment_id
        { status := some "cancelled"
          cancellation_reason := some cancellation_reason }

/-- The database state after `cancel_appointment`: a raised
`ValidationError` propagates out of the `transaction.atomic` block before
any write, leaving the table unchanged. -/
def run_cancel (db : List Appointment) (appointment_id : Nat)
    (cancellation_reason : String) : List Appointment :=
  match cancel_appointment db appointment_id cancellation_reason with
  | .error _ => db
  | .ok (_, db') => db'

/-- A create payload dictionary for appointments; `some v` models a key
present with a non-`None` value (`data.get('patient_id')` is falsy
exactly when the key is absent or `None`, since `UUID` and `datetime`
objects are always truthy). -/
structure CreateData where
  patient_id : Option Nat := none
  practitioner_id : Option Nat := none
  start : Option Int := none
  endT : Option Int := none
  status : String := "proposed"
  cancellation_reason : String := ""
deriving Repr, DecidableEq

/-- Embedding of `AppointmentService.validate_create`: required-field
checks, `start < end`, the 5-minute grace window against `now`, the
24-hour duration cap, then the conflict query (no exclusion id). -/
def validate_create (db : List Appointment) (now : Int) (data : CreateData) :
    Except String Unit :=
  match data.patient_id with
  | none => .error "Patient is required"
  | some _ =>
    match data.practitioner_id with
    | none => .error "Practitioner is required"
    | some practitioner_id =>
      match data.start with
      | none => .error "Start time is required"
      | some start =>
        match data.endT with
        | none => .error "End time is required"
        | some endT =>
          if start ≥ endT then
            .error "End time must be after start time"
          else if start < now - 5 * 60 then
            .error "Cannot create appointments in the past"
          else if endT - start > 24 * 3600 then
            .error "Appointment duration cannot exceed 24 hours"
          else if find_conflicts db practitioner_id start endT none ≠ [] then
            .error "Practitioner has conflicting appointments"
          else
            .ok ()

/-- Embedding of `BaseService.create` instantiated at appointments:
`validate_create`, then `BaseRepository.create` inserts a fresh row
(whose `uuid4` primary key is the parameter `new_id`). -/
def service_create (db : List Appointment) (now : Int) (new_id : Nat)
    (data : CreateData) : Except String (Appointment × List Appointment) :=
  match validate_create db now data with
  | .error e => .error e
  | .ok () =>
    let created : Appointment :=
      { id := new_id
        status := data.status
        start := data.start.getD 0
        endT := data.endT.getD 0
        patient_id := data.patient_id.getD 0
        practitioner_id := data.practitioner_id.getD 0
        cancellation_reason := data.cancellation_reason }
    .ok (created, db ++ [created])

/-- The database state after `BaseService.create`: a raised
`ValidationError` propagates out of the `transaction.atomic` block before
the insert, leaving the table unchanged. -/
def run_create (db : List Appointment) (now : Int) (new_id : Nat)
    (data : CreateData) : List Appointment :=
  match service_create db now new_id data with
  | .error _ => db
  | .ok (_, db') => db'

section BaseServiceGeneric

variable {E D : Type}

/-- Embedding of `BaseService.update` over an arbitrary entity type `E`
with primary key `getId`, update-payload type `D`, validation hook
`validate` (which may consult the stored table, as
`AppointmentService.validate_update` does through its repository) and
payload application `applyData` (the `setattr` loop of
`BaseRepository.update`). -/
def base_update (getId : E → Nat) (validate : List E → E → D → Except String Unit)
    (applyData : E → D → E) (db : List E) (id : Nat) (data : D) :
    Except String (Option E × List E) :=
  match db.find? (fun e => getId e == id) with
  | none => .ok (none, db)
  | some existing =>
    match validate db existing data with
    | .error e => .error e
    | .ok () =>
      match db.find? (fun e => getId e == id) with
      | none => .ok (none, db)
      | some inst =>
        let updated := applyData inst data
        .ok (some updated, db.map (fun e => if getId e == id then updated else e))

/-- Embedding of `BaseService.delete` over an arbitrary entity type:
missing id returns `False` before any hook runs; otherwise
`validate_delete`, then `BaseRepository.delete` removes the row with that
primary key and the service returns `True`. -/
def base_delete (getId : E → Nat) (validate_del : List E → E → Except String Unit)
    (db : List E) (id : Nat) : Except String (Bool × List E) :=
  match db.find? (fun e => getId e == id) with
  | none => .ok (false, db)
  | some existing =>
    match validate_del db existing with
    | .error e => .error e
    | .ok () =>
      match db.find? (fun e => getId e == id) with
      | none => .ok (false, db)
      | some inst =>
        .ok (true, db.filter (fun e => !(getId e == getId inst)))

end BaseServiceGeneric

/-- Embedding of `patients.models.Patient`.  `birth_date` is a `date`
object, modelled as an `Int` day number: the serializer writes
`birth_date.isoformat()` and reads it back with
`datetime.fromisoformat(...).date()`, which compose to the identity on
dates, so the date value is carried through unchanged.  A `CharField`
with `blank=True, null=True` can hold `None` or a (possibly empty)
string, hence `Option String`. -/
structure Patient where
  id : Nat
  family_name : String
  given_name : String
  middle_name : Option String
  gender : String
  birth_date : Int
  address_line : Option String
  address_city : Option String
  address_state : Option String
  address_postal_code : Option String
  address_country : Option String
  email : Option String
  phone : Option String
  active : Bool
deriving Repr, DecidableEq

/-- Python truthiness of an optional string field: `None` and `''` are
falsy.  Returns the value when truthy, `none` otherwise. -/
def truthyOpt (o : Option String) : Option String :=
  match o with
  | some s => if s = "" then none else some s
  | none => none

/-- Embedding of `fhir.resources.humanname.HumanName` (the fields the
serializer uses). -/
structure HumanName where
  use : Option String
  family : Option String
  given : List String
deriving Repr, DecidableEq

/-- Embedding of `fhir.resources.address.Address` (the fields the
serializer uses); an absent key is `none` / `[]`. -/
structure FHIRAddress where
  line : List String
  city : Option String
  state : Option String
  postalCode : Option String
  country : Option String
  use : Option String
deriving Repr, DecidableEq

/-- Embedding of `fhir.resources.contactpoint.ContactPoint`. -/
structure ContactPoint where
  system : String
  value : String
  use : String
deriving Repr, DecidableEq

/-- The FHIR `Patient` resource dictionary shape handled by
`FHIRPatientSerializer`: `resourceType` is `some s` when the key is
present, and the list-valued fields are `[]` when absent. -/
structure FHIRPatientR where
  resourceType : Option String
  active : Option Bool
  name : List HumanName
  gender : Option String
  birthDate : Option Int
  address : List FHIRAddress
  telecom : List ContactPoint
deriving Repr, DecidableEq

/-- Embedding of `FHIRPatientSerializer.to_representation`: build the
`HumanName` (appending `middle_name` to `given` only when truthy), the
home `Address` only when some component is truthy, the email/phone
`ContactPoint`s only when truthy, and the top-level resource fields. -/
def to_representation (p : Patient) : FHIRPatientR :=
  let given_names : List String :=
    match p.middle_name with
    | some m => if m = "" then [p.given_name] else [p.given_name, m]
    | none => [p.given_name]
  let name : HumanName :=
    { use := some "official", family := some p.family_name, given := given_names }
  let line : List String :=
    match truthyOpt p.address_line with
    | some l => [l]
    | none => []
  let hasAddress : Bool :=
    !line.isEmpty || (truthyOpt p.address_city).isSome
      || (truthyOpt p.address_state).isSome
      || (truthyOpt p.address_postal_code).isSome
      || (truthyOpt p.address_country).isSome
  let address : List FHIRAddress :=
    if hasAddress then
      [{ line := line
         city := truthyOpt p.address_city
         state := truthyOpt p.address_state
         postalCode := truthyOpt p.address_postal_code
         country := truthyOpt p.address_country
         use := some "home" }]
    else []
  let telecom : List ContactPoint :=
    (match truthyOpt p.email with
     | some e => [{ system := "email", value := e, use := "home" }]
     | none => [])
    ++ (match truthyOpt p.phone with
        | some ph => [{ system := "phone", value := ph, use := "home" }]
        | none => [])
  { resourceType := some "Patient"
    active := some p.active
    name := [name]
    gender := some p.gender
    birthDate := some p.birth_date
    address := address
    telecom := telecom }

/-- The model-data dictionary produced by
`FHIRPatientSerializer.to_internal_value`.  The address/telecom keys are
only written when the corresponding FHIR entries are present; an unset
key is modelled as `none`. -/
structure PatientData where
  family_name : Option String
  given_name : String
  middle_name : Option String
  gender : String
  birth_date : Int
  active : Bool
  address_line : Option String := none
  address_city : Option String := none
  address_state : Option String := none
  address_postal_code : Option String := none
  address_country : Option String := none
  email : Option String := none
  phone : Option String := none
deriving Repr, DecidableEq

/-- The FHIR administrative-gender codes accepted by the serializer. -/
def valid_genders : List String := ["male", "female", "other", "unknown"]

/-- The `for contact in fhir_patient.telecom` loop of
`to_internal_value`: later entries of a given system overwrite earlier
ones. -/
def apply_telecom (d : PatientData) (contacts : List ContactPoint) : PatientData :=
  contacts.foldl
    (fun acc c =>
      if c.system == "email" then { acc with email := some c.value }
      else if c.system == "phone" then { acc with phone := some c.value }
      else acc)
    d

/-- Embedding of `FHIRPatientSerializer.to_internal_value`: reject a
missing or non-`'Patient'` `resourceType`, parse the resource (the
`fhir.resources` parse succeeds on the well-shaped dictionaries modelled
by `FHIRPatientR`), require at least one name, a truthy and valid gender,
and a birth date, then assemble the model dictionary, the first address,
and the telecom entries. -/
def to_internal_value (d : FHIRPatientR) : Except String PatientData :=
  if d.resourceType ≠ some "Patient" then
    .error "Resource must be of type Patient"
  else
    match d.name with
    | [] => .error "At least one name is required"
    | name :: _ =>
      let given_names := name.given
      match d.gender with
      | none => .error "gender: This field is required"
      | some g =>
        if g = "" then .error "gender: This field is required"
        else if !(valid_genders.contains g) then .error "Invalid gender code"
        else
          match d.birthDate with
          | none => .error "birthDate: This field is required"
          | some bd =>
            let base : PatientData :=
              { family_name := name.family
                given_name := given_names.headD ""
                middle_name := given_names[1]?
                gender := g
                birth_date := bd
                active := d.active.getD true }
            let withAddress : PatientData :=
              match d.address with
              | [] => base
              | addr :: _ =>
                { base with
                  address_line := addr.line.head?
                  address_city := addr.city
                  address_state := addr.state
                  address_postal_code := addr.postalCode
                  address_country := addr.country }
            .ok (apply_telecom withAddress d.telecom)

/-- The four report strategy classes of `reports.strategies`. -/
inductive ReportStrategy where
  | pdf
  | csv
  | txt
  | json
deriving Repr, DecidableEq

/-- The static registry `ReportFactory._strategies`. -/
def strategy_registry : List (String × ReportStrategy) :=
  [("pdf", .pdf), ("csv", .csv), ("txt", .txt), ("json", .json)]

/-- Character-wise ASCII lower-casing, the effect of Python `str.lower`
on the strings compared against the ASCII registry keys (identical to
`String.toLower`, written over the character list so that it evaluates
in the kernel). -/
def pyLower (s : String) : String := ⟨s.data.map Char.toLower⟩

/-- Embedding of `ReportFactory.create_strategy`: lower-case the format,
look it up in the registry, instantiate the strategy or raise
`ValueError`. -/
def create_strategy (format_type : String) : Except String ReportStrategy :=
  match strategy_registry.lookup (pyLower format_type) with
  | some cls => .ok cls
  | none => .error "Unsupported format"

/-! ## Theorems about the claims -/

/-- A stored appointment of practitioner 3 that overlaps the proposed
slot [0, 10) but is in status `"cancelled"`. -/
def c1_cancelled_overlap : Appointment :=
  { id := 1
    status := "cancelled"
    start := 0
    endT := 10
    patient_id := 2
    practitioner_id := 3
    cancellation_reason := "" }

/-- C1 (counterexample): `find_conflicts` does not return every stored
appointment of the practitioner satisfying the overlap predicate: the
stored cancelled appointment of practitioner 3 overlaps [0, 10) and is
not excluded, yet the query returns the empty list, because the code
additionally filters by the active statuses. -/
theorem c1_claim_false_on_cancelled_overlap :
    find_conflicts [c1_cancelled_overlap] 3 0 10 none = []
      ∧ c1_cancelled_overlap ∈ [c1_cancelled_overlap]
      ∧ c1_cancelled_overlap.practitioner_id = 3
      ∧ c1_cancelled_overlap.start < 10
      ∧ c1_cancelled_overlap.endT > 0 := by
  decide

/-- C1 (amended): `find_conflicts` returns exactly the stored
appointments of the practitioner, other than the optionally excluded id,
that satisfy the overlap predicate `other.start < end ∧ other.end >
start` AND whose status is one of the active statuses `proposed`,
`pending`, `booked`, `arrived`, `checked-in`. -/
theorem c1_find_conflicts_exactly_active_overlaps
    (db : List Appointment) (pid : Nat) (s e : Int) (excl : Option Nat)
    (a : Appointment) :
    a ∈ find_conflicts db pid s e excl ↔
      a ∈ db ∧ a.practitioner_id = pid ∧ a.start < e ∧ a.endT > s
        ∧ a.status ∈ active_statuses
        ∧ (∀ eid, excl = some eid → a.id ≠ eid) := by
  cases excl with
  | none =>
    simp [find_conflicts, List.mem_filter, and_assoc]
  | some eid =>
    simp [find_conflicts, List.mem_filter, and_assoc]

/-- The transition check fails exactly when the proposed status differs
from the current one and is absent from the table row. -/
theorem status_transition_invalid_iff (st ns : String) :
    is_valid_status_transition st ns = false ↔
      ns ≠ st ∧ ns ∉ valid_transitions st := by
  by_cases h : st = ns
  · subst h
    simp [is_valid_status_transition]
  · simp [is_valid_status_transition, beq_eq_false_iff_ne.mpr h, Ne.symm h,
      List.elem_iff]

/-- The four terminal statuses have empty rows in the transition table. -/
theorem valid_transitions_terminal_empty (st : String)
    (hterm : st ∈ (["fulfilled", "cancelled", "noshow", "entered-in-error"] :
      List String)) :
    valid_transitions st = [] := by
  simp only [List.mem_cons, List.not_mem_nil, or_false] at hterm
  rcases hterm with h | h | h | h <;> simp [h, valid_transitions]

/-- When the table row of the current status is empty, a `status_check`
that passes leaves the status unchanged under `getD`. -/
theorem status_check_ok_of_empty_row (existing : Appointment)
    (data : UpdateData) (hempty : valid_transitions existing.status = [])
    (hok : status_check existing data = .ok ()) :
    data.status.getD existing.status = existing.status := by
  cases hs : data.status with
  | none => simp
  | some ns =>
    simp only [status_check, hs] at hok
    by_cases hv : is_valid_status_transition existing.status ns = true
    · have hcontains : ([] : List String).contains ns = false := rfl
      simp only [is_valid_status_transition, hempty, hcontains] at hv
      have heq : existing.status = ns := by
        by_contra hne
        rw [if_neg (by simpa using hne)] at hv
        exact absurd hv (by simp)
      simp [← heq]
    · rw [if_neg hv] at hok
      exact absurd hok (by simp)

/-- C2: with the merged timing check satisfied and the conflict query
empty, `validate_update` on a payload carrying a `'status'` key raises
exactly when the new status differs from the current one and is not in
the static allowed-transitions table row of the current status. -/
theorem c2_validate_update_rejects_invalid_transition
    (db : List Appointment) (existing : Appointment) (data : UpdateData)
    (ns : String)
    (hstatus : data.status = some ns)
    (htiming : data.start.getD existing.start < data.endT.getD existing.endT)
    (hconflicts : find_conflicts db (effective_practitioner data existing)
        (data.start.getD existing.start) (data.endT.getD existing.endT)
        (some existing.id) = []) :
    (∃ msg, validate_update db existing data = .error msg) ↔
      (ns ≠ existing.status ∧ ns ∉ valid_transitions existing.status) := by
  have h1 : ¬ (data.start.getD existing.start ≥ data.endT.getD existing.endT) :=
    not_le.mpr htiming
  rw [validate_update, if_neg h1, hconflicts]
  rw [show ((data.start.isSome || data.endT.isSome || data.practitioner.isSome
      || data.practitioner_id.isSome)
        && !(List.isEmpty ([] : List Appointment))) = false by simp]
  rw [if_neg (by simp)]
  rcases Bool.eq_false_or_eq_true
      (is_valid_status_transition existing.status ns) with hv | hv
  · refine iff_of_false ?_ ?_
    · rintro ⟨msg, hmsg⟩
      simp [status_check, hstatus, hv] at hmsg
    · intro hcontra
      have hfalse := (status_transition_invalid_iff existing.status ns).mpr hcontra
      rw [hv] at hfalse
      exact absurd hfalse (by simp)
  · refine iff_of_true ⟨"Invalid status transition", ?_⟩
      ((status_transition_invalid_iff _ _).mp hv)
    simp [status_check, hstatus, hv]

/-- A terminal appointment used to witness the C2 and C8 theorems. -/
def terminal_existing : Appointment :=
  { id := 7
    status := "fulfilled"
    start := 0
    endT := 10
    patient_id := 2
    practitioner_id := 3
    cancellation_reason := "" }

/-- Witness for C2 at a concrete input: updating a `"fulfilled"`
appointment to `"booked"` with empty database is rejected. -/
theorem c2_validate_update_rejects_invalid_transition_witness :
    (∃ msg, validate_update [] terminal_existing
        { status := some "booked" } = .error msg) ↔
      ("booked" ≠ terminal_existing.status
        ∧ "booked" ∉ valid_transitions terminal_existing.status) :=
  c2_validate_update_rejects_invalid_transition [] terminal_existing
    { status := some "booked" } "booked" rfl (by decide) rfl

/-- C8: once an appointment is in one of the terminal statuses
`fulfilled`, `cancelled`, `noshow`, `entered-in-error`, (a) every update
payload proposing a different status is rejected by `validate_update`,
and (b) any `BaseService.update` call that succeeds leaves the stored
status unchanged, so the status never changes through the service
layer. -/
theorem c8_terminal_status_never_changes
    (db : List Appointment) (id : Nat) (existing : Appointment)
    (data : UpdateData)
    (hstored : get_by_id db id = some existing)
    (hterm : existing.status ∈
      (["fulfilled", "cancelled", "noshow", "entered-in-error"] : List String)) :
    (∀ ns, data.status = some ns → ns ≠ existing.status →
      ∃ msg, validate_update db existing data = .error msg)
    ∧ (∀ r db', service_update db id data = .ok (r, db') →
        ∀ a' ∈ db', a'.id = id → a'.status = existing.status) := by
  have hempty := valid_transitions_terminal_empty existing.status hterm
  constructor
  · intro ns hstatus hne
    have hv : is_valid_status_transition existing.status ns = false :=
      (status_transition_invalid_iff _ _).mpr ⟨hne, by simp [hempty]⟩
    unfold validate_update
    split
    · exact ⟨_, rfl⟩
    · split
      · exact ⟨_, rfl⟩
      · exact ⟨"Invalid status transition", by simp [status_check, hstatus, hv]⟩
  · intro r db' hok a' ha' hid
    unfold service_update at hok
    rw [hstored] at hok
    dsimp only at hok
    cases hval : validate_update db existing data with
    | error e =>
      rw [hval] at hok
      exact absurd hok (by simp)
    | ok u =>
      cases u
      rw [hval] at hok
      simp only [Except.ok.injEq, Prod.mk.injEq] at hok
      have hdb' : db' =
          db.map (fun a => if a.id == id then apply_update existing data else a) :=
        hok.2.symm
      subst hdb'
      rcases List.mem_map.mp ha' with ⟨e, he, rfl⟩
      have hstat : status_check existing data = .ok () := by
        unfold validate_update at hval
        split at hval
        · exact absurd hval (by simp)
        · split at hval
          · exact absurd hval (by simp)
          · exact hval
      have hkeep := status_check_ok_of_empty_row existing data hempty hstat
      by_cases hc : (e.id == id) = true
      · rw [if_pos hc]
        show (apply_update existing data).status = existing.status
        simp [apply_update, hkeep]
      · rw [if_neg hc] at hid
        exact absurd (by simp [hid] : (e.id == id) = true) hc

/-- Witness for C8 at a concrete input: the stored `"fulfilled"`
appointment with id 7 cannot be moved to `"booked"`, and a service
update with that payload leaves its status `"fulfilled"`. -/
theorem c8_terminal_status_never_changes_witness :
    (∀ ns, ({ status := some "booked" } : UpdateData).status = some ns →
      ns ≠ terminal_existing.status →
      ∃ msg, validate_update [terminal_existing] terminal_existing
        { status := some "booked" } = .error msg)
    ∧ (∀ r db', service_update [terminal_existing] 7
        { status := some "booked" } = .ok (r, db') →
        ∀ a' ∈ db', a'.id = 7 → a'.status = terminal_existing.status) :=
  c8_terminal_status_never_changes [terminal_existing] 7 terminal_existing
    { status := some "booked" } (by decide) (by decide)

/-- An `Except String Unit` that is not `ok` is an `error`. -/
theorem except_ne_ok_iff_error (x : Except String Unit) (h : x ≠ .ok ()) :
    ∃ msg, x = .error msg := by
  cases x with
  | error e => exact ⟨e, rfl⟩
  | ok u => cases u; exact absurd rfl h

/-- A stored active overlapping appointment is a member of the conflict
query result. -/
theorem mem_find_conflicts_of_overlap (db : List Appointment)
    (a : Appointment) (pid : Nat) (s e : Int)
    (ha : a ∈ db) (hap : a.practitioner_id = pid) (hae : a.start < e)
    (has : a.endT > s) (hastat : a.status ∈ active_statuses) :
    a ∈ find_conflicts db pid s e none := by
  unfold find_conflicts
  refine List.mem_filter.mpr ⟨ha, ?_⟩
  simp [hap, hae, has, List.elem_iff, hastat]

/-- C3: when the practitioner of the create payload already has a stored
appointment in an active status overlapping the proposed `[start, end)`,
`BaseService.create` raises `ValidationError` and the stored state is
unchanged (the validation runs inside `transaction.atomic` before any
insert). -/
theorem c3_create_rejects_conflicts
    (db : List Appointment) (now : Int) (new_id : Nat) (data : CreateData)
    (pid : Nat) (s e : Int)
    (hpid : data.practitioner_id = some pid)
    (hs : data.start = some s)
    (he : data.endT = some e)
    (hconflict : ∃ a ∈ db, a.practitioner_id = pid ∧ a.start < e ∧ a.endT > s
        ∧ a.status ∈ active_statuses) :
    (∃ msg, service_create db now new_id data = .error msg)
    ∧ run_create db now new_id data = db := by
  obtain ⟨a, ha, hap, hae, has, hastat⟩ := hconflict
  have hne : validate_create db now data ≠ .ok () := by
    intro hok
    unfold validate_create at hok
    cases hp : data.patient_id with
    | none => rw [hp] at hok; exact absurd hok (by simp)
    | some p =>
      rw [hp, hpid, hs, he] at hok
      dsimp only at hok
      split at hok
      · exact absurd hok (by simp)
      · split at hok
        · exact absurd hok (by simp)
        · split at hok
          · exact absurd hok (by simp)
          · split at hok
            · exact absurd hok (by simp)
            · next hempty =>
              have hmem := mem_find_conflicts_of_overlap db a pid s e
                ha hap hae has hastat
              exact hempty (List.ne_nil_of_mem hmem)
  obtain ⟨msg, hmsg⟩ := except_ne_ok_iff_error _ hne
  have hsc : service_create db now new_id data = .error msg := by
    unfold service_create
    rw [hmsg]
  exact ⟨⟨msg, hsc⟩, by unfold run_create; rw [hsc]⟩

/-- A stored booked appointment of practitioner 3 on `[0, 100)`, used to
witness the C3 and C10 theorems. -/
def booked_existing : Appointment :=
  { id := 5
    status := "booked"
    start := 0
    endT := 100
    patient_id := 2
    practitioner_id := 3
    cancellation_reason := "" }

/-- Witness for C3 at a concrete input: creating an appointment for
practitioner 3 on `[50, 120)` against the stored booked `[0, 100)` is
rejected and the table is unchanged. -/
theorem c3_create_rejects_conflicts_witness :
    (∃ msg, service_create [booked_existing] 0 11
      { patient_id := some 9
        practitioner_id := some 3
        start := some 50
        endT := some 120 } = .error msg)
    ∧ run_create [booked_existing] 0 11
      { patient_id := some 9
        practitioner_id := some 3
        start := some 50
        endT := some 120 } = [booked_existing] :=
  c3_create_rejects_conflicts [booked_existing] 0 11
    { patient_id := some 9
      practitioner_id := some 3
      start := some 50
      endT := some 120 } 3 50 120 rfl rfl rfl (by decide)

/-- `can_cancel` holds exactly on the four cancellable statuses. -/
theorem can_cancel_iff (a : Appointment) :
    can_cancel a = true ↔
      a.status ∈ (["proposed", "pending", "booked", "waitlist"] : List String) := by
  simp [can_cancel, List.elem_iff]

/-- From any cancellable status, the transition to `"cancelled"` is in
the table. -/
theorem cancellable_to_cancelled_valid (a : Appointment)
    (hcc : can_cancel a = true) :
    is_valid_status_transition a.status "cancelled" = true := by
  have hmem := (can_cancel_iff a).mp hcc
  simp only [List.mem_cons, List.not_mem_nil, or_false] at hmem
  rcases hmem with h | h | h | h <;>
    simp [is_valid_status_transition, valid_transitions, h]

/-- The cancel payload used by `cancel_appointment`. -/
def cancel_data (reason : String) : UpdateData :=
  { status := some "cancelled", cancellation_reason := some reason }

/-- C10: `cancel_appointment` sets the status to `"cancelled"` exactly
when an appointment with that id exists and its status is one of
`proposed`, `pending`, `booked`, `waitlist`; in every other case it
raises `ValidationError` and the stored table is unchanged.  The stored
appointments are assumed well-timed (`start < end`), the invariant the
create/update validators maintain. -/
theorem c10_cancel_appointment_spec
    (db : List Appointment) (appointment_id : Nat) (reason : String)
    (hwf : ∀ a ∈ db, a.start < a.endT) :
    ((∃ a' db', cancel_appointment db appointment_id reason = .ok (some a', db')
        ∧ a'.status = "cancelled") ↔
      (∃ a, get_by_id db appointment_id = some a
        ∧ a.status ∈ (["proposed", "pending", "booked", "waitlist"] : List String)))
    ∧ (¬ (∃ a, get_by_id db appointment_id = some a
        ∧ a.status ∈ (["proposed", "pending", "booked", "waitlist"] : List String)) →
      (∃ msg, cancel_appointment db appointment_id reason = .error msg)
        ∧ run_cancel db appointment_id reason = db) := by
  cases hget : get_by_id db appointment_id with
  | none =>
    have hc : cancel_appointment db appointment_id reason =
        .error "Appointment not found" := by
      unfold cancel_appointment
      rw [hget]
    constructor
    · refine iff_of_false ?_ ?_
      · rintro ⟨a', db', heq, -⟩
        rw [hc] at heq
        exact absurd heq (by simp)
      · rintro ⟨a, hb, -⟩
        exact absurd hb (by simp)
    · intro _
      exact ⟨⟨_, hc⟩, by unfold run_cancel; rw [hc]⟩
  | some a =>
    have hwfa : a.start < a.endT :=
      hwf a (List.mem_of_find?_eq_some hget)
    by_cases hcc : can_cancel a = true
    · have hval : validate_update db a (cancel_data reason) = .ok () := by
        have hvalid := cancellable_to_cancelled_valid a hcc
        simp [validate_update, status_check, cancel_data, hvalid,
          not_le.mpr hwfa]
      have hc : cancel_appointment db appointment_id reason =
          .ok (some (apply_update a (cancel_data reason)),
            db.map (fun x =>
              if x.id == appointment_id then apply_update a (cancel_data reason)
              else x)) := by
        unfold cancel_appointment
        rw [hget]
        dsimp only
        rw [hcc]
        simp only [Bool.not_true, Bool.false_eq_true, if_false]
        unfold service_update
        rw [hget]
        dsimp only
        rw [show validate_update db a
            { start := none, endT := none, status := some "cancelled",
              practitioner := none, practitioner_id := none,
              cancellation_reason := some reason } = Except.ok () from hval]
        rfl
      constructor
      · refine iff_of_true ⟨apply_update a (cancel_data reason), _, hc, ?_⟩
          ⟨a, rfl, (can_cancel_iff a).mp hcc⟩
        simp [apply_update, cancel_data]
      · intro hnot
        exact absurd ⟨a, rfl, (can_cancel_iff a).mp hcc⟩ hnot
    · have hf : can_cancel a = false := by
        rwa [Bool.not_eq_true] at hcc
      have hc : cancel_appointment db appointment_id reason =
          .error "Cannot cancel appointment with status" := by
        unfold cancel_appointment
        rw [hget]
        dsimp only
        rw [hf]
        simp
      constructor
      · refine iff_of_false ?_ ?_
        · rintro ⟨a', db', heq, -⟩
          rw [hc] at heq
          exact absurd heq (by simp)
        · rintro ⟨b, hb, hmem⟩
          have hba : a = b := by injection hb
          rw [← hba] at hmem
          rw [(can_cancel_iff a).mpr hmem] at hf
          exact absurd hf (by simp)
      · intro _
        exact ⟨⟨_, hc⟩, by unfold run_cancel; rw [hc]⟩

/-- Witness for C10 at a concrete input: the stored booked appointment
with id 5 is cancellable, and id 99 is not found. -/
theorem c10_cancel_appointment_spec_witness :
    ((∃ a' db', cancel_appointment [booked_existing] 5 "" = .ok (some a', db')
        ∧ a'.status = "cancelled") ↔
      (∃ a, get_by_id [booked_existing] 5 = some a
        ∧ a.status ∈ (["proposed", "pending", "booked", "waitlist"] : List String)))
    ∧ (¬ (∃ a, get_by_id [booked_existing] 5 = some a
        ∧ a.status ∈ (["proposed", "pending", "booked", "waitlist"] : List String)) →
      (∃ msg, cancel_appointment [booked_existing] 5 "" = .error msg)
        ∧ run_cancel [booked_existing] 5 "" = [booked_existing]) :=
  c10_cancel_appointment_spec [booked_existing] 5 "" (by decide)

/-- C7: for an id with no stored entity, `BaseService.update` returns
`None` and `BaseService.delete` returns `False` with the stored state
unchanged, whatever the validation hooks are (so no hook is consulted);
for a present id whose `validate_delete` passes, `delete` removes the
entity (no row with its key remains) and returns `True`. -/
theorem c7_base_service_update_delete
    {E D : Type} (getId : E → Nat)
    (validate_upd : List E → E → D → Except String Unit)
    (applyData : E → D → E)
    (validate_del : List E → E → Except String Unit)
    (db : List E) (id : Nat) (data : D) :
    (db.find? (fun e => getId e == id) = none →
      base_update getId validate_upd applyData db id data = .ok (none, db)
        ∧ base_delete getId validate_del db id = .ok (false, db))
    ∧ (∀ existing, db.find? (fun e => getId e == id) = some existing →
        validate_del db existing = .ok () →
        base_delete getId validate_del db id =
          .ok (true, db.filter (fun e => !(getId e == getId existing)))
          ∧ ∀ e' ∈ db.filter (fun e => !(getId e == getId existing)),
              getId e' ≠ getId existing) := by
  constructor
  · intro hnone
    constructor
    · unfold base_update
      rw [hnone]
    · unfold base_delete
      rw [hnone]
  · intro existing hsome hdelok
    constructor
    · unfold base_delete
      rw [hsome]
      dsimp only
      rw [hdelok]
    · intro e' he'
      have hpred := List.of_mem_filter he'
      intro heq
      rw [heq] at hpred
      simp at hpred

/-- Witness for C7 at concrete inputs: id 99 is absent from the
one-element table (update gives `None`, delete gives `False`, state
unchanged), and deleting the present id 7 succeeds and leaves no row
with that key. -/
theorem c7_base_service_update_delete_witness :
    (base_update Appointment.id (fun _ _ _ => Except.ok ()) apply_update
        [terminal_existing] 99 ({} : UpdateData) = .ok (none, [terminal_existing])
      ∧ base_delete Appointment.id (fun _ _ => Except.ok ())
          [terminal_existing] 99 = .ok (false, [terminal_existing]))
    ∧ (base_delete Appointment.id (fun _ _ => Except.ok ())
          [terminal_existing] 7 =
        .ok (true, [terminal_existing].filter
          (fun e => !(e.id == terminal_existing.id)))
        ∧ ∀ e' ∈ [terminal_existing].filter
            (fun e => !(e.id == terminal_existing.id)),
            e'.id ≠ terminal_existing.id) := by
  constructor
  · exact (c7_base_service_update_delete Appointment.id
      (fun _ _ _ => Except.ok ()) apply_update (fun _ _ => Except.ok ())
      [terminal_existing] 99 ({} : UpdateData)).1 (by decide)
  · exact (c7_base_service_update_delete Appointment.id
      (fun _ _ _ => Except.ok ()) apply_update (fun _ _ => Except.ok ())
      [terminal_existing] 7 ({} : UpdateData)).2 terminal_existing
      (by decide) rfl

/-- C9: with an empty cache, `check_availability` answers `True` exactly
when `find_conflicts` with the same arguments returns the empty list. -/
theorem c9_check_availability_agrees_with_find_conflicts
    (db : List Appointment) (pid : Nat) (s e : Int) (excl : Option Nat) :
    (check_availability emptyCache db pid s e excl).1 = true ↔
      find_conflicts db pid s e excl = [] := by
  simp [check_availability, emptyCache, List.length_eq_zero]

/-- C6: `to_internal_value` rejects every input whose `resourceType` key
is absent or differs from `'Patient'`. -/
theorem c6_resource_type_required (d : FHIRPatientR)
    (h : d.resourceType ≠ some "Patient") :
    ∃ msg, to_internal_value d = .error msg := by
  unfold to_internal_value
  rw [if_pos h]
  exact ⟨_, rfl⟩

/-- An input dictionary with no `resourceType` key. -/
def no_resource_type : FHIRPatientR :=
  { resourceType := none
    active := none
    name := []
    gender := none
    birthDate := none
    address := []
    telecom := [] }

/-- Witness for C6 at a concrete input: a dictionary without a
`resourceType` key is rejected. -/
theorem c6_resource_type_required_witness :
    ∃ msg, to_internal_value no_resource_type = .error msg :=
  c6_resource_type_required no_resource_type (by decide)

/-- C5: lower-casing the format string, the factory returns the `pdf`,
`csv`, `txt`, `json` strategies on exactly those four keys and raises
`ValueError` on every other string. -/
theorem c5_create_strategy_exactly_four_formats (format_type : String) :
    (pyLower format_type = "pdf" → create_strategy format_type = .ok .pdf)
    ∧ (pyLower format_type = "csv" → create_strategy format_type = .ok .csv)
    ∧ (pyLower format_type = "txt" → create_strategy format_type = .ok .txt)
    ∧ (pyLower format_type = "json" → create_strategy format_type = .ok .json)
    ∧ (pyLower format_type ∉ (["pdf", "csv", "txt", "json"] : List String) →
        ∃ msg, create_strategy format_type = .error msg) := by
  refine ⟨?_, ?_, ?_, ?_, ?_⟩ <;> intro h
  · unfold create_strategy
    rw [h]
    rfl
  · unfold create_strategy
    rw [h]
    rfl
  · unfold create_strategy
    rw [h]
    rfl
  · unfold create_strategy
    rw [h]
    rfl
  · simp only [List.mem_cons, List.not_mem_nil, or_false, not_or] at h
    obtain ⟨h1, h2, h3, h4⟩ := h
    unfold create_strategy
    have hlookup : strategy_registry.lookup (pyLower format_type) = none := by
      simp [strategy_registry, List.lookup, beq_eq_false_iff_ne.mpr h1,
        beq_eq_false_iff_ne.mpr h2, beq_eq_false_iff_ne.mpr h3,
        beq_eq_false_iff_ne.mpr h4]
    rw [hlookup]
    exact ⟨_, rfl⟩

/-- Witness for C5 at concrete inputs: `"PDF"` yields the PDF strategy
and `"xml"` is rejected. -/
theorem c5_create_strategy_exactly_four_formats_witness :
    create_strategy "PDF" = .ok .pdf
      ∧ (∃ msg, create_strategy "xml" = .error msg) :=
  ⟨(c5_create_strategy_exactly_four_formats "PDF").1 (by decide),
    (c5_create_strategy_exactly_four_formats "xml").2.2.2.2 (by decide)⟩

/-- `apply_telecom` writes only the email/phone keys: the six
demographic fields are unchanged by the telecom loop. -/
theorem apply_telecom_preserves (d : PatientData) (cs : List ContactPoint) :
    (apply_telecom d cs).family_name = d.family_name
    ∧ (apply_telecom d cs).given_name = d.given_name
    ∧ (apply_telecom d cs).middle_name = d.middle_name
    ∧ (apply_telecom d cs).gender = d.gender
    ∧ (apply_telecom d cs).birth_date = d.birth_date
    ∧ (apply_telecom d cs).active = d.active := by
  induction cs generalizing d with
  | nil => exact ⟨rfl, rfl, rfl, rfl, rfl, rfl⟩
  | cons c cs ih =>
    have hstep : apply_telecom d (c :: cs) =
        apply_telecom
          (if c.system == "email" then { d with email := some c.value }
           else if c.system == "phone" then { d with phone := some c.value }
           else d) cs := rfl
    rw [hstep]
    by_cases he : (c.system == "email") = true
    · rw [if_pos he]
      exact ih { d with email := some c.value }
    · rw [if_neg he]
      by_cases hp : (c.system == "phone") = true
      · rw [if_pos hp]
        exact ih { d with phone := some c.value }
      · rw [if_neg hp]
        exact ih d

/-- A patient whose `middle_name` is the empty string (a value a blank
`CharField` can hold). -/
def blank_middle_patient : Patient :=
  { id := 1
    family_name := "Doe"
    given_name := "Jo"
    middle_name := some ""
    gender := "male"
    birth_date := 0
    address_line := none
    address_city := none
    address_state := none
    address_postal_code := none
    address_country := none
    email := none
    phone := none
    active := true }

/-- C4 (counterexample): the FHIR round trip does not preserve
`middle_name` for every patient: a patient whose `middle_name` is the
empty string comes back with `middle_name = None`, because
`to_representation` only appends a truthy middle name to the `given`
list. -/
theorem c4_roundtrip_false_on_blank_middle_name :
    to_internal_value (to_representation blank_middle_patient) =
      .ok { family_name := some "Doe"
            given_name := "Jo"
            middle_name := none
            gender := "male"
            birth_date := 0
            active := true }
      ∧ blank_middle_patient.middle_name = some ""
      ∧ (some "" : Option String) ≠ none := by
  exact ⟨rfl, rfl, by decide⟩

/-- C4 (amended): for a patient with non-empty family and given names
and a valid gender, deserializing the serialized FHIR shape yields model
data agreeing on `family_name`, `given_name`, `gender`, `birth_date` and
`active`, and on `middle_name` up to Python truthiness: the round-tripped
`middle_name` is the original when that is non-null and non-empty, and
`None` otherwise. -/
theorem c4_roundtrip_preserves_demographics (p : Patient)
    (hf : p.family_name ≠ "") (hg : p.given_name ≠ "")
    (hgen : p.gender ∈ valid_genders) :
    ∃ d, to_internal_value (to_representation p) = .ok d
      ∧ d.family_name = some p.family_name
      ∧ d.given_name = p.given_name
      ∧ d.middle_name = truthyOpt p.middle_name
      ∧ d.gender = p.gender
      ∧ d.birth_date = p.birth_date
      ∧ d.active = p.active := by
  have hge : p.gender ≠ "" := by
    simp only [valid_genders, List.mem_cons, List.not_mem_nil, or_false] at hgen
    rcases hgen with h | h | h | h <;> simp [h]
  have hcontains : valid_genders.contains p.gender = true :=
    List.elem_iff.mpr hgen
  unfold to_representation to_internal_value
  dsimp only
  rw [if_neg (by simp)]
  rw [if_neg hge]
  rw [show (!(valid_genders.contains p.gender)) = false by rw [hcontains]; rfl]
  refine ⟨_, rfl, ?_⟩
  obtain ⟨h1, h2, h3, h4, h5, h6⟩ := apply_telecom_preserves _ _
  refine ⟨?_, ?_, ?_, ?_, ?_, ?_⟩
  · rw [h1]
    split <;> rfl
  · rw [h2]
    split <;>
      (cases p.middle_name with
        | none => rfl
        | some m =>
          by_cases hm : m = ""
          · simp [hm]
          · simp [hm])
  · rw [h3]
    split <;>
      (cases p.middle_name with
        | none => rfl
        | some m =>
          by_cases hm : m = ""
          · simp [truthyOpt, hm]
          · simp [truthyOpt, hm])
  · rw [h4]
    split <;> rfl
  · rw [h5]
    split <;> rfl
  · rw [h6]
    split <;> rfl

/-- A fully-populated patient used to witness the C4 round trip. -/
def named_patient : Patient :=
  { id := 2
    family_name := "Doe"
    given_name := "Jo"
    middle_name := some "Ann"
    gender := "female"
    birth_date := 3
    address_line := some "1 Main St"
    address_city := some "Oslo"
    address_state := none
    address_postal_code := some "0150"
    address_country := some "NO"
    email := some "jo@example.com"
    phone := some "555"
    active := false }

/-- Witness for C4 (amended) at a concrete patient. -/
theorem c4_roundtrip_preserves_demographics_witness :
    ∃ d, to_internal_value (to_representation named_patient) = .ok d
      ∧ d.family_name = some named_patient.family_name
      ∧ d.given_name = named_patient.given_name
      ∧ d.middle_name = truthyOpt named_patient.middle_name
      ∧ d.gender = named_patient.gender
      ∧ d.birth_date = named_patient.birth_date
      ∧ d.active = named_patient.active :=
  c4_roundtrip_preserves_demographics named_patient (by decide) (by decide)
    (by decide)

end VismaHealthcare
